import Mathlib

/-!
Shallow embedding of the Guardian AI monitoring server (TypeScript sources:
`server/storage.ts`, `server/services/groq.ts`, `server/services/monitor.ts`,
and the blockchain service).  JavaScript `Map<number, T>` objects are modelled
as insertion-ordered association lists `List (Nat × T)` (JS `Map.set` replaces
in place when the key exists and appends otherwise; `Map.values()` iterates in
insertion order).  `Date` timestamps are modelled as `Nat` milliseconds and are
passed explicitly where the code calls `new Date()`.  Strings use Lean
`String`; `jsToLower`/`jsToUpper` model `toLowerCase`/`toUpperCase` as the
character-wise ASCII case maps, which cover every string this system cases.
Falsy-default expressions such as `x || d` are modelled by explicit helpers.
-/

namespace Guardian

/-- JavaScript `toLowerCase()`: character-wise lowercasing (`Char.toLower`
is ASCII-only, which covers the hex addresses and patterns this system
compares). -/
def jsToLower (s : String) : String :=
  ⟨s.data.map Char.toLower⟩

/-- JavaScript `toUpperCase()`: character-wise uppercasing. -/
def jsToUpper (s : String) : String :=
  ⟨s.data.map Char.toUpper⟩

/-- JavaScript `a || d` for an optional string `a` (both `undefined`/`null`
and the empty string are falsy). -/
def jsOrString (a : Option String) (d : String) : String :=
  match a with
  | some s => if s = "" then d else s
  | none => d

/-- JavaScript `a || null` for an optional string `a`. -/
def jsOrNullString (a : Option String) : Option String :=
  match a with
  | some s => if s = "" then none else some s
  | none => none

/-- JavaScript `a || d` for an optional boolean `a`. -/
def jsOrBool (a : Option Bool) (d : Bool) : Bool :=
  match a with
  | some b => if b = false then d else b
  | none => d

/-- JavaScript `a || d` for an optional number `a` (0 is falsy). -/
def jsOrNat (a : Option Nat) (d : Nat) : Nat :=
  match a with
  | some n => if n = 0 then d else n
  | none => d

/-- Row of the `users` table (`shared/schema.ts`). -/
structure User where
  id : Nat
  username : String
  password : String
deriving Repr, DecidableEq

/-- Insert record for `users`. -/
structure InsertUser where
  username : String
  password : String
deriving Repr, DecidableEq

/-- Row of the `contracts` table (`shared/schema.ts`): a monitored smart
contract.  `abi` is nullable jsonb, modelled as an optional string. -/
structure Contract where
  id : Nat
  name : String
  address : String
  type : String
  abi : Option String
  status : String
  addedAt : Nat
deriving Repr, DecidableEq

/-- Insert record for `contracts`: `abi` and `status` may be absent. -/
structure InsertContract where
  name : String
  address : String
  type : String
  abi : Option String := none
  status : Option String := none
deriving Repr, DecidableEq

/-- Row of the `alerts` table (`shared/schema.ts`). -/
structure Alert where
  id : Nat
  contractId : Nat
  severity : String
  title : String
  description : String
  aiAnalysis : Option String
  createdAt : Nat
  resolved : Bool
deriving Repr, DecidableEq

/-- Insert record for `alerts`. -/
structure InsertAlert where
  contractId : Nat
  severity : String
  title : String
  description : String
  aiAnalysis : Option String := none
  resolved : Option Bool := none
deriving Repr, DecidableEq

/-- Row of the `events` table (`shared/schema.ts`).  `eventData` is free-form
jsonb; the demo data only ever stores string records, modelled as an
association list of string pairs. -/
structure Event where
  id : Nat
  contractId : Nat
  eventName : String
  blockNumber : Nat
  transactionHash : String
  eventData : List (String × String)
  timestamp : Nat
deriving Repr, DecidableEq

/-- Insert record for `events`. -/
structure InsertEvent where
  contractId : Nat
  eventName : String
  blockNumber : Nat
  transactionHash : String
  eventData : List (String × String)
deriving Repr, DecidableEq

/-- Row of the `ai_queries` table (`shared/schema.ts`). -/
structure AiQuery where
  id : Nat
  contractId : Nat
  query : String
  response : Option String
  tokenCount : Option Nat
  createdAt : Nat
deriving Repr, DecidableEq

/-- Insert record for `ai_queries`. -/
structure InsertAiQuery where
  contractId : Nat
  query : String
  response : Option String := none
  tokenCount : Option Nat := none
deriving Repr, DecidableEq

/-- JavaScript `Map.set`: replace in place when the key is present, append
otherwise (JS maps preserve insertion order). -/
def mapSet {α : Type} : List (Nat × α) → Nat → α → List (Nat × α)
  | [], k, v => [(k, v)]
  | (k', v') :: rest, k, v =>
    if k' = k then (k, v) :: rest else (k', v') :: mapSet rest k v

/-- JavaScript `Map.get`. -/
def mapGet {α : Type} (m : List (Nat × α)) (k : Nat) : Option α :=
  match m with
  | [] => none
  | (k', v') :: rest => if k' = k then some v' else mapGet rest k

/-- JavaScript `Array.from(map.values())`: the values in insertion order. -/
def mapValues {α : Type} (m : List (Nat × α)) : List α :=
  m.map Prod.snd

/-- The in-memory store `MemStorage` of `server/storage.ts`: five maps keyed
by auto-incrementing integer ids, plus the per-entity counters. -/
structure MemStorage where
  users : List (Nat × User)
  contracts : List (Nat × Contract)
  alerts : List (Nat × Alert)
  events : List (Nat × Event)
  aiQueries : List (Nat × AiQuery)
  userCurrentId : Nat
  contractCurrentId : Nat
  alertCurrentId : Nat
  eventCurrentId : Nat
  aiQueryCurrentId : Nat
deriving Repr, DecidableEq

namespace MemStorage

/-- `MemStorage.getUser`. -/
def getUser (s : MemStorage) (id : Nat) : Option User :=
  mapGet s.users id

/-- `MemStorage.getUserByUsername`. -/
def getUserByUsername (s : MemStorage) (username : String) : Option User :=
  (mapValues s.users).find? (fun user => user.username = username)

/-- `MemStorage.createUser`: take the current id, increment the counter,
insert. -/
def createUser (s : MemStorage) (insertUser : InsertUser) : User × MemStorage :=
  let id := s.userCurrentId
  let user : User :=
    { id := id, username := insertUser.username, password := insertUser.password }
  (user, { s with users := mapSet s.users id user, userCurrentId := id + 1 })

/-- `MemStorage.getContracts`. -/
def getContracts (s : MemStorage) : List Contract :=
  mapValues s.contracts

/-- `MemStorage.getContract`. -/
def getContract (s : MemStorage) (id : Nat) : Option Contract :=
  mapGet s.contracts id

/-- `MemStorage.getContractByAddress`: `find` over the values comparing
lowercased addresses. -/
def getContractByAddress (s : MemStorage) (address : String) : Option Contract :=
  (mapValues s.contracts).find?
    (fun contract => jsToLower contract.address = jsToLower address)

/-- `MemStorage.createContract`: fresh id, `addedAt` from `new Date()`,
`status` defaults to `'HEALTHY'` and `abi` to `null` via `||`. -/
def createContract (s : MemStorage) (now : Nat) (insertContract : InsertContract) :
    Contract × MemStorage :=
  let id := s.contractCurrentId
  let contract : Contract :=
    { id := id
      name := insertContract.name
      address := insertContract.address
      type := insertContract.type
      abi := jsOrNullString insertContract.abi
      status := jsOrString insertContract.status "HEALTHY"
      addedAt := now }
  (contract,
    { s with contracts := mapSet s.contracts id contract, contractCurrentId := id + 1 })

/-- `MemStorage.updateContractStatus`. -/
def updateContractStatus (s : MemStorage) (id : Nat) (status : String) :
    Option Contract × MemStorage :=
  match mapGet s.contracts id with
  | none => (none, s)
  | some contract =>
    let updatedContract : Contract := { contract with status := status }
    (some updatedContract, { s with contracts := mapSet s.contracts id updatedContract })

/-- `MemStorage.getAlerts`. -/
def getAlerts (s : MemStorage) : List Alert :=
  mapValues s.alerts

/-- `MemStorage.getAlertsByContract`. -/
def getAlertsByContract (s : MemStorage) (contractId : Nat) : List Alert :=
  (mapValues s.alerts).filter (fun alert => alert.contractId == contractId)

/-- `MemStorage.getActiveAlerts`. -/
def getActiveAlerts (s : MemStorage) : List Alert :=
  (mapValues s.alerts).filter (fun alert => !alert.resolved)

/-- `MemStorage.createAlert`: fresh id, `createdAt` from `new Date()`,
`aiAnalysis` defaults to `null` and `resolved` to `false` via `||`. -/
def createAlert (s : MemStorage) (now : Nat) (insertAlert : InsertAlert) :
    Alert × MemStorage :=
  let id := s.alertCurrentId
  let alert : Alert :=
    { id := id
      contractId := insertAlert.contractId
      severity := insertAlert.severity
      title := insertAlert.title
      description := insertAlert.description
      aiAnalysis := jsOrNullString insertAlert.aiAnalysis
      createdAt := now
      resolved := jsOrBool insertAlert.resolved false }
  (alert, { s with alerts := mapSet s.alerts id alert, alertCurrentId := id + 1 })

/-- `MemStorage.resolveAlert`: look the alert up; when present, store a copy
with `resolved := true`; otherwise return `undefined` and leave the store
alone. -/
def resolveAlert (s : MemStorage) (id : Nat) : Option Alert × MemStorage :=
  match mapGet s.alerts id with
  | none => (none, s)
  | some alert =>
    let resolvedAlert : Alert := { alert with resolved := true }
    (some resolvedAlert, { s with alerts := mapSet s.alerts id resolvedAlert })

/-- Comparator of `getEvents`: JS `sort((a, b) => b.timestamp - a.timestamp)`
orders by timestamp descending; JS `sort` is stable. -/
def eventDesc (a b : Event) : Bool :=
  decide (b.timestamp ≤ a.timestamp)

/-- `MemStorage.getEvents`: sort all events newest first; `limit ? ... : ...`
treats a limit of 0 as falsy and returns everything. -/
def getEvents (s : MemStorage) (limit : Option Nat) : List Event :=
  let events := (mapValues s.events).mergeSort eventDesc
  match limit with
  | some n => if n = 0 then events else events.take n
  | none => events

/-- `MemStorage.getEventsByContract`. -/
def getEventsByContract (s : MemStorage) (contractId : Nat) (limit : Option Nat) :
    List Event :=
  let events :=
    ((mapValues s.events).filter (fun event => event.contractId == contractId)).mergeSort
      eventDesc
  match limit with
  | some n => if n = 0 then events else events.take n
  | none => events

/-- `MemStorage.createEvent`: fresh id, `timestamp` from `new Date()`. -/
def createEvent (s : MemStorage) (now : Nat) (insertEvent : InsertEvent) :
    Event × MemStorage :=
  let id := s.eventCurrentId
  let event : Event :=
    { id := id
      contractId := insertEvent.contractId
      eventName := insertEvent.eventName
      blockNumber := insertEvent.blockNumber
      transactionHash := insertEvent.transactionHash
      eventData := insertEvent.eventData
      timestamp := now }
  (event, { s with events := mapSet s.events id event, eventCurrentId := id + 1 })

/-- `MemStorage.getAiQueries`. -/
def getAiQueries (s : MemStorage) : List AiQuery :=
  mapValues s.aiQueries

/-- `MemStorage.getAiQueriesByContract`. -/
def getAiQueriesByContract (s : MemStorage) (contractId : Nat) : List AiQuery :=
  (mapValues s.aiQueries).filter (fun query => query.contractId == contractId)

/-- `MemStorage.createAiQuery`: fresh id, `createdAt` from `new Date()`,
`response` defaults to `null` and `tokenCount` to `0` via `||`. -/
def createAiQuery (s : MemStorage) (now : Nat) (insertQuery : InsertAiQuery) :
    AiQuery × MemStorage :=
  let id := s.aiQueryCurrentId
  let query : AiQuery :=
    { id := id
      contractId := insertQuery.contractId
      query := insertQuery.query
      response := jsOrNullString insertQuery.response
      tokenCount := some (jsOrNat insertQuery.tokenCount 0)
      createdAt := now }
  (query, { s with aiQueries := mapSet s.aiQueries id query, aiQueryCurrentId := id + 1 })

/-- `MemStorage.getTotalQueryTokenCount`: `reduce` over `(tokenCount || 0)`. -/
def getTotalQueryTokenCount (s : MemStorage) : Nat :=
  (mapValues s.aiQueries).foldl (fun total query => total + jsOrNat query.tokenCount 0) 0

/-- The store as built by the `MemStorage` constructor before
`initGuardianContracts` runs: empty maps, all counters at 1. -/
def blank : MemStorage :=
  { users := [], contracts := [], alerts := [], events := [], aiQueries := []
    userCurrentId := 1, contractCurrentId := 1, alertCurrentId := 1
    eventCurrentId := 1, aiQueryCurrentId := 1 }

/-- The `guardianFeed` insert record of `initGuardianContracts` (environment
variables unset, so the literal fallback addresses are used). -/
def guardianFeed : InsertContract :=
  { name := "Guardian Feed", address := "0xea1Ad2Ebf76b490a327eF1885863c9209994F015"
    type := "FEED", status := some "HEALTHY" }

/-- The `guardianDAO` insert record of `initGuardianContracts`. -/
def guardianDAO : InsertContract :=
  { name := "Guardian DAO", address := "0xd4DcBae99C65079ba6CA2e99c8D5Dcc37d60456b"
    type := "DAO", status := some "WARNING" }

/-- The `guardianBadge` insert record of `initGuardianContracts`. -/
def guardianBadge : InsertContract :=
  { name := "Guardian Badge", address := "0x525975C25823ecb3a3875F577a5B9574aB758197"
    type := "BADGE", status := some "ALERT" }

/-- `initGuardianContracts`: create the three Guardian contracts in order. -/
def initGuardianContracts (s : MemStorage) (now : Nat) : MemStorage :=
  let s1 := (createContract s now guardianFeed).2
  let s2 := (createContract s1 now guardianDAO).2
  (createContract s2 now guardianBadge).2

/-- The store right after the `MemStorage` constructor finishes. -/
def init (now : Nat) : MemStorage :=
  initGuardianContracts blank now

/-- Well-formedness maintained by the store: in each map every key is below
that map's current-id counter (true of the freshly constructed store and
preserved by every operation). -/
def Wf (s : MemStorage) : Prop :=
  (∀ p ∈ s.users, p.1 < s.userCurrentId) ∧
  (∀ p ∈ s.contracts, p.1 < s.contractCurrentId) ∧
  (∀ p ∈ s.alerts, p.1 < s.alertCurrentId) ∧
  (∀ p ∈ s.events, p.1 < s.eventCurrentId) ∧
  (∀ p ∈ s.aiQueries, p.1 < s.aiQueryCurrentId)

instance (s : MemStorage) : Decidable (Wf s) := by
  unfold Wf; infer_instance

end MemStorage

namespace BlockchainService

/-- The hard-coded dummy bytecode that `getContractCode` returns in demo
mode. -/
def DEMO_BYTECODE : String :=
  "0x608060405234801561001057600080fd5b50610150806100206000396000f3fe608060405234801561001057600080fd5b50600436106100365760003560e01c8063209652551461003b57806330065c7f14610059575b600080fd5b610043610075565b60405161005091906100a1565b60405180910390f35b610073600480360381019061006e91906100ed565b61007e565b005b60005481565b8060008190555050565b6000819050919050565b61009b81610088565b82525050565b60006020820190506100b66000830184610092565b92915050565b600080fd5b6100ca81610088565b81146100d557600080fd5b50565b6000813590506100e7816100c1565b92915050565b600060208284031215610103576101026100bc565b5b6000610111848285016100d8565b9150509291505056fe"

/-- `BlockchainService.getContractCode`.  `rng` models the process's
`Math.random` stream (the demo branch of the source performs no call into it);
`provider` models `this.provider`, `none` when no provider was created.  In
demo mode the method returns the hard-coded dummy bytecode; otherwise it
throws when the provider is missing and queries the chain through the
provider when present. -/
def getContractCode (demoMode : Bool) (_rng : Nat → Nat)
    (provider : Option (String → String)) (address : String) :
    Except String String :=
  if demoMode then Except.ok DEMO_BYTECODE
  else
    match provider with
    | none => Except.error "Provider not available"
    | some getCode => Except.ok (getCode address)

/-- The demo event attached to a contract by `createDemoEvents`, keyed on
`contract.type.toUpperCase()`; `none` for types outside the table. -/
def demoEventFor (contract : Contract) : Option (String × List (String × String)) :=
  if jsToUpper contract.type = "FEED" then
    some ("AlertSubmitted",
      [("submitter", "0x7834CbA335D49B6160cB7ad17f17A6ec38a18f32"),
       ("alertId", "123"),
       ("description", "Suspicious activity detected in token transfer functions")])
  else if jsToUpper contract.type = "DAO" then
    some ("ProposalCreated",
      [("proposalId", "7"),
       ("proposer", "0x1A78be26D8373eDb66A71dd38dB196f7B9621C0F"),
       ("description", "Proposal to update Guardian security parameters")])
  else if jsToUpper contract.type = "BADGE" then
    some ("BadgeClaim",
      [("claimer", "0x9B45dc3F0F271E1B1538189D6FD49A033c58De39"),
       ("tokenId", "42")])
  else none

/-- `createDemoEvents`: one demo event per contract whose upper-cased type is
in the table, with the fixed block number and a `Math.random`-derived
transaction hash (supplied by the oracle `randHex`); the demo timestamp
computed in the source is dead code, since `createEvent` stamps its own
`new Date()`. -/
def createDemoEvents (s : MemStorage) (now : Nat) (randHex : Contract → String)
    (contracts : List Contract) : MemStorage :=
  contracts.foldl
    (fun acc contract =>
      match demoEventFor contract with
      | none => acc
      | some (name, data) =>
        (acc.createEvent now
          { contractId := contract.id, eventName := name, blockNumber := 12345678
            transactionHash := randHex contract, eventData := data }).2)
    s

/-- `createDemoAlerts`: three fixed alerts against the first three stored
contracts; indexing `contracts[2]` throws when fewer than three contracts
exist. -/
def createDemoAlerts (s : MemStorage) (now : Nat) : Except String MemStorage :=
  match s.getContracts with
  | contract0 :: contract1 :: contract2 :: _ =>
    let s1 := (s.createAlert now
      { contractId := contract0.id, severity := "HIGH"
        title := "Suspicious Transfer Pattern Detected"
        description := "Multiple high-value transfers to newly created wallets in short succession. Possible early signs of a rug pull."
        aiAnalysis := some "The contract's transfer function was called 17 times in 3 minutes, sending tokens to wallets that were all created within the last hour. This pattern matches known exit scam behaviors. Recommend immediate investigation." }).2
    let s2 := (s1.createAlert now
      { contractId := contract1.id, severity := "MEDIUM"
        title := "Governance Parameter Change"
        description := "Proposal to modify voting threshold was accepted with minimal participation."
        aiAnalysis := some "The proposal passed with only 12% of token holders voting, which is unusually low. The new parameters reduce the quorum needed for future proposals, potentially centralizing control." }).2
    let s3 := (s2.createAlert now
      { contractId := contract2.id, severity := "LOW"
        title := "Unusual Minting Activity"
        description := "Large batch of new badges minted to a single address."
        aiAnalysis := some "While within contract parameters, this minting activity represents a 23% increase in total supply. The receiving address has no prior history with this contract." }).2
    Except.ok s3
  | _ => Except.error "TypeError: cannot read properties of undefined"

/-- Demo-mode body of the blockchain service's startup routine: seed demo
events and demo alerts, then report success.  The second component carries the
store as mutated so far even when the routine throws. -/
def demoInit (randHex : Contract → String) (now : Nat) (s : MemStorage) :
    Except String Bool × MemStorage :=
  let s1 := createDemoEvents s now randHex s.getContracts
  match createDemoAlerts s1 now with
  | .ok s2 => (Except.ok true, s2)
  | .error e => (Except.error e, s1)

end BlockchainService

namespace GroqService

/-- `DAILY_TOKEN_LIMIT` of `server/services/groq.ts`. -/
def DAILY_TOKEN_LIMIT : Nat := 100000

/-- Outcome of the single `fetch` POST a Groq call issues: `ok` carries the
extracted message content and token usage (after the `|| ''` / `|| 0`
defaulting on the parsed response), `fail` the message of whatever error the
`try` block threw (non-OK response, network error, parse error). -/
inductive FetchOutcome where
  | ok (content : String) (tokenCount : Nat)
  | fail (message : String)
deriving Repr, DecidableEq

/-- Prompt built by `analyzeContract` (template-literal whitespace abridged):
metadata, the code truncated to its first 8000 units, and the instruction
list. -/
def contractPrompt (contract : Contract) (code : String) : String :=
  "Analyze the following smart contract for security vulnerabilities:\n" ++
  "Contract Name: " ++ contract.name ++ "\n" ++
  "Contract Address: " ++ contract.address ++ "\n" ++
  "Contract Type: " ++ contract.type ++ "\n" ++
  "Contract Code:\n" ++
  code.take 8000 ++ " " ++ (if code.length > 8000 then "...(truncated)" else "") ++ "\n" ++
  "Specifically look for:\n" ++
  "1. Reentrancy vulnerabilities\n" ++
  "2. Access control issues\n" ++
  "3. Integer overflow/underflow\n" ++
  "4. Logic errors\n" ++
  "5. Gas optimization issues\n" ++
  "6. Front-running vulnerabilities\n" ++
  "Provide a detailed analysis with security rating and recommendations."

/-- `JSON.stringify` of the demo-shaped event data (a string record);
indentation abridged. -/
def eventDataJson (eventData : List (String × String)) : String :=
  "\x7b" ++
    String.intercalate ", "
      (eventData.map (fun p => "\"" ++ p.1 ++ "\": \"" ++ p.2 ++ "\"")) ++
  "\x7d"

/-- Prompt built by `analyzeEvent` (template-literal whitespace abridged). -/
def eventPrompt (contract : Contract) (eventName : String)
    (eventData : List (String × String)) : String :=
  "Analyze the following blockchain event:\n" ++
  "Contract: " ++ contract.name ++ " (" ++ contract.address ++ ")\n" ++
  "Event: " ++ eventName ++ "\n" ++
  "Event Data: " ++ eventDataJson eventData ++ "\n" ++
  "Is this event suspicious or unusual in any way?\n" ++
  "Does it indicate a potential security issue?\n" ++
  "What actions might be recommended based on this event?\n" ++
  "Provide a concise analysis."

/-- `GroqService.analyzeContract`.  `apiKey` is `GROQ_API_KEY` (missing is the
empty string, which is falsy); `net` is the outcome of the one `fetch` the
body can issue.  Returns the `(analysis, tokenCount)` pair the caller sees,
the store (an `AiQuery` row is inserted on success), and the number of POSTs
issued.  Every failure is caught and turned into an explanatory result with
`tokenCount` 0; nothing is retried and nothing is re-thrown. -/
def analyzeContract (apiKey : String) (net : FetchOutcome) (s : MemStorage)
    (now : Nat) (contract : Contract) (code : String) :
    (String × Nat) × MemStorage × Nat :=
  if apiKey = "" then
    (("AI analysis unavailable: API key not configured", 0), s, 0)
  else
    match net with
    | .ok content tokenCount =>
      let s1 := (s.createAiQuery now
        { contractId := contract.id, query := contractPrompt contract code
          response := some content, tokenCount := some tokenCount }).2
      ((content, tokenCount), s1, 1)
    | .fail message =>
      (("Error analyzing contract: " ++ message, 0), s, 1)

/-- `GroqService.analyzeEvent`: same shape as `analyzeContract` with the event
prompt and the event error prefix. -/
def analyzeEvent (apiKey : String) (net : FetchOutcome) (s : MemStorage)
    (now : Nat) (contract : Contract) (eventName : String)
    (eventData : List (String × String)) : (String × Nat) × MemStorage × Nat :=
  if apiKey = "" then
    (("AI analysis unavailable: API key not configured", 0), s, 0)
  else
    match net with
    | .ok content tokenCount =>
      let s1 := (s.createAiQuery now
        { contractId := contract.id
          query := eventPrompt contract eventName eventData
          response := some content, tokenCount := some tokenCount }).2
      ((content, tokenCount), s1, 1)
    | .fail message =>
      (("Error analyzing event: " ++ message, 0), s, 1)

/-- `GroqService.isWithinUsageLimit`. -/
def isWithinUsageLimit (s : MemStorage) : Bool :=
  decide (s.getTotalQueryTokenCount < DAILY_TOKEN_LIMIT)

end GroqService

/-- Boolean substring test on character lists: does `pat` occur inside the
text, checking every suffix start? -/
def substrAt (pat : List Char) : List Char → Bool
  | [] => pat.isEmpty
  | c :: rest => pat.isPrefixOf (c :: rest) || substrAt pat rest

/-- Case-insensitive containment of a literal pattern, modelling a JS regex
of plain text with the `i` flag (ASCII case folding, which covers every
pattern the monitor uses). -/
def containsCI (text pat : String) : Bool :=
  substrAt (jsToLower pat).data (jsToLower text).data

/-- One character that the JS regex `.` matches: anything except a line
terminator. -/
def regexDot (c : Char) : Bool :=
  c != '\n' && c != '\r' && c.val != 0x2028 && c.val != 0x2029

/-- Match of `/front.?running/i` anchored at the head of the (lowercased)
character list: `front`, then zero or one arbitrary non-terminator character,
then `running`. -/
def frontRunHere (text : List Char) : Bool :=
  ("front".data).isPrefixOf text &&
    (("running".data).isPrefixOf (text.drop 5) ||
      (match text.drop 5 with
       | c1 :: after1 => regexDot c1 && ("running".data).isPrefixOf after1
       | [] => false))

/-- Matcher for `/front.?running/i` at every start position of the lowercased
character list. -/
def frontRunAt : List Char → Bool
  | [] => false
  | c :: rest => frontRunHere (c :: rest) || frontRunAt rest

/-- Test of the `/front.?running/i` pattern on a text. -/
def frontRunningTest (text : String) : Bool :=
  frontRunAt (jsToLower text).data

/-- One entry of the monitor's `vulnerabilityIndicators` table: a pattern
test plus the severity and title of the alert it produces. -/
structure Indicator where
  test : String → Bool
  severity : String
  title : String

/-- The `vulnerabilityIndicators` list of `analyzeContractWithAI`, in source
order. -/
def vulnerabilityIndicators : List Indicator :=
  [ { test := fun t => containsCI t "reentrancy", severity := "HIGH"
      title := "Reentrancy vulnerability" },
    { test := fun t => containsCI t "access control", severity := "HIGH"
      title := "Access control issue" },
    { test := fun t => containsCI t "overflow" || containsCI t "underflow"
      severity := "MEDIUM", title := "Integer overflow/underflow" },
    { test := fun t => frontRunningTest t, severity := "MEDIUM"
      title := "Front-running vulnerability" },
    { test := fun t => containsCI t "logic error", severity := "MEDIUM"
      title := "Logic error" },
    { test := fun t => containsCI t "gas optimization", severity := "LOW"
      title := "Gas optimization issue" } ]

namespace MonitorService

/-- Period of the repeating security-check timer: `30 * 60 * 1000` ms. -/
def CHECK_PERIOD_MS : Nat := 30 * 60 * 1000

/-- Period of the repeating AI-analysis timer: `2 * 60 * 60 * 1000` ms. -/
def ANALYSIS_PERIOD_MS : Nat := 2 * 60 * 60 * 1000

/-- Control state of `MonitorService`: the `isRunning` flag and the two
interval handles, each modelled by the period (ms) of the repeating timer it
schedules, `none` when no timer is scheduled. -/
structure MonitorState where
  isRunning : Bool
  checkInterval : Option Nat
  analysisInterval : Option Nat
deriving Repr, DecidableEq

/-- `MonitorService.checkContractHealth`: fetch the code (an exception lands
in the `catch`, which files a LOW alert); code missing or `'0x'` files a HIGH
alert and sets the status to ALERT; no recent events sets HEALTHY; three or
more suspicious events among the last ten file a MEDIUM alert and set
WARNING. -/
def checkContractHealth (s : MemStorage) (now : Nat)
    (codeOf : String → Except String String) (contract : Contract) : MemStorage :=
  match codeOf contract.address with
  | .error message =>
    (s.createAlert now
      { contractId := contract.id, severity := "LOW"
        title := "Error monitoring contract"
        description := "Failed to monitor contract: " ++ message
        resolved := some false }).2
  | .ok contractCode =>
    if contractCode = "" || contractCode = "0x" then
      let s1 := (s.createAlert now
        { contractId := contract.id, severity := "HIGH"
          title := "Contract unavailable"
          description := "The contract at " ++ contract.address ++
            " is unavailable or self-destructed."
          resolved := some false }).2
      (s1.updateContractStatus contract.id "ALERT").2
    else
      match s.getEventsByContract contract.id (some 10) with
      | [] => (s.updateContractStatus contract.id "HEALTHY").2
      | e0 :: rest =>
        let suspiciousEventCount :=
          ((e0 :: rest).filter (fun event =>
            event.eventName == "BadgeClaim" || event.eventName == "AlertSubmitted")).length
        if suspiciousEventCount ≥ 3 then
          let s1 := (s.createAlert now
            { contractId := contract.id, severity := "MEDIUM"
              title := "Unusual event pattern detected"
              description := "Multiple " ++ e0.eventName ++
                " events detected in a short time period."
              resolved := some false }).2
          (s1.updateContractStatus contract.id "WARNING").2
        else s

/-- `MonitorService.runSecurityChecks`: returns at once when the service is
not running, otherwise health-checks every stored contract in order. -/
def runSecurityChecks (m : MonitorState) (s : MemStorage) (now : Nat)
    (codeOf : String → Except String String) : MemStorage :=
  if !m.isRunning then s
  else s.getContracts.foldl (fun acc contract => checkContractHealth acc now codeOf contract) s

/-- The `for ... of vulnerabilityIndicators` loop of `analyzeContractWithAI`:
on the first indicator whose pattern matches the analysis, file one alert
with that indicator's severity and title, adjust the contract status, and
`break`; later indicators are never consulted. -/
def applyIndicators (s : MemStorage) (now : Nat) (contract : Contract)
    (analysis : String) : List Indicator → MemStorage
  | [] => s
  | indicator :: rest =>
    if indicator.test analysis then
      let s1 := (s.createAlert now
        { contractId := contract.id, severity := indicator.severity
          title := indicator.title, description := analysis
          resolved := some false }).2
      if indicator.severity == "HIGH" then
        (s1.updateContractStatus contract.id "ALERT").2
      else if indicator.severity == "MEDIUM" && contract.status != "ALERT" then
        (s1.updateContractStatus contract.id "WARNING").2
      else s1
    else applyIndicators s now contract analysis rest

/-- `MonitorService.analyzeContractWithAI`: skip when the code fetch throws
(only logged) or yields missing/`'0x'` code; otherwise run the Groq analysis
and scan its text through the indicator table. -/
def analyzeContractWithAI (apiKey : String) (net : GroqService.FetchOutcome)
    (s : MemStorage) (now : Nat) (codeOf : String → Except String String)
    (contract : Contract) : MemStorage :=
  match codeOf contract.address with
  | .error _ => s
  | .ok contractCode =>
    if contractCode = "" || contractCode = "0x" then s
    else
      let result := GroqService.analyzeContract apiKey net s now contract contractCode
      applyIndicators result.2.1 now contract result.1.1 vulnerabilityIndicators

/-- `MonitorService.runAIAnalysis`: returns at once when the service is not
running; skips the cycle when the token budget is exhausted; otherwise
analyzes every stored contract in order (`netOf` supplies each contract's
fetch outcome). -/
def runAIAnalysis (m : MonitorState) (s : MemStorage) (now : Nat)
    (apiKey : String) (netOf : Contract → GroqService.FetchOutcome)
    (codeOf : String → Except String String) : MemStorage :=
  if !m.isRunning then s
  else if !(GroqService.isWithinUsageLimit s) then s
  else
    s.getContracts.foldl
      (fun acc contract => analyzeContractWithAI apiKey (netOf contract) acc now codeOf contract)
      s

/-- `MonitorService.start`.  `bcInit` is the blockchain service's startup
routine, returning its success flag (or the error it threw) together with the
store as mutated so far.  Already running returns `true` unchanged; a `false`
from the blockchain startup aborts; a thrown error is caught, clears
`isRunning` and aborts; otherwise the flag is set, the two repeating timers
are scheduled with their periods, and one security check runs immediately. -/
def start (m : MonitorState) (s : MemStorage) (now : Nat)
    (bcInit : MemStorage → Except String Bool × MemStorage)
    (codeOf : String → Except String String) : Bool × MonitorState × MemStorage :=
  if m.isRunning then (true, m, s)
  else
    match bcInit s with
    | (.error _, s1) => (false, { m with isRunning := false }, s1)
    | (.ok false, s1) => (false, m, s1)
    | (.ok true, s1) =>
      let m1 : MonitorState :=
        { isRunning := true, checkInterval := some CHECK_PERIOD_MS
          analysisInterval := some ANALYSIS_PERIOD_MS }
      (true, m1, runSecurityChecks m1 s1 now codeOf)

/-- `MonitorService.stop`: clear the flag and cancel both timers. -/
def stop (_m : MonitorState) : MonitorState :=
  { isRunning := false, checkInterval := none, analysisInterval := none }

end MonitorService

/-- The alert the indicator loop files when `indicator` is the first match:
fresh id, the indicator's severity and title, the analysis text as
description, no AI analysis attached, unresolved. -/
def mkIndicatorAlert (s : MemStorage) (now : Nat) (contract : Contract)
    (analysis : String) (indicator : Indicator) : Alert :=
  { id := s.alertCurrentId, contractId := contract.id
    severity := indicator.severity, title := indicator.title
    description := analysis, aiAnalysis := none
    createdAt := now, resolved := false }

/-! ## Concrete sample data used by the witnesses -/

/-- A constant stand-in for the `Math.random` stream. -/
def rngZero : Nat → Nat := fun _ => 0

/-- Another stand-in for the `Math.random` stream, distinct from `rngZero`. -/
def rngId : Nat → Nat := fun n => n

/-- The Guardian Feed contract as stored by `MemStorage.init 0`. -/
def sampleFeed : Contract :=
  { id := 1, name := "Guardian Feed"
    address := "0xea1Ad2Ebf76b490a327eF1885863c9209994F015"
    type := "FEED", abi := none, status := "HEALTHY", addedAt := 0 }

/-- A store holding one unresolved sample alert (id 1). -/
def sampleAlertStore : MemStorage :=
  ((MemStorage.init 0).createAlert 3
    { contractId := 1, severity := "HIGH", title := "T", description := "D" }).2

/-- The sample alert stored in `sampleAlertStore`. -/
def sampleAlert : Alert :=
  { id := 1, contractId := 1, severity := "HIGH", title := "T", description := "D"
    aiAnalysis := none, createdAt := 3, resolved := false }

/-- A store whose first contract has address `0xAB`. -/
def dupStoreA : MemStorage :=
  (MemStorage.blank.createContract 0 { name := "A", address := "0xAB", type := "FEED" }).2

/-- A second contract whose address `0xab` equals the first contract's
address up to ASCII letter case. -/
def dupContractB : Contract :=
  (dupStoreA.createContract 0 { name := "B", address := "0xab", type := "DAO" }).1

/-- The store holding both case-colliding contracts. -/
def dupStoreB : MemStorage :=
  (dupStoreA.createContract 0 { name := "B", address := "0xab", type := "DAO" }).2

/-- A store with three events whose timestamps arrive out of order. -/
def sampleEventsStore : MemStorage :=
  let s1 := ((MemStorage.init 0).createEvent 5
    { contractId := 1, eventName := "A", blockNumber := 1
      transactionHash := "h1", eventData := [] }).2
  let s2 := (s1.createEvent 9
    { contractId := 2, eventName := "B", blockNumber := 2
      transactionHash := "h2", eventData := [] }).2
  (s2.createEvent 7
    { contractId := 1, eventName := "C", blockNumber := 3
      transactionHash := "h3", eventData := [] }).2

/-- A transaction-hash oracle for the demo-data generator. -/
def sampleHash : Contract → String := fun _ => "0xhash"

/-- The demo blockchain startup routine with the sample hash oracle. -/
def bcInitSample : MemStorage → Except String Bool × MemStorage :=
  BlockchainService.demoInit sampleHash 0

/-! ## Lemmas about the map model -/

theorem mapSet_fresh {α : Type} (m : List (Nat × α)) (k : Nat) (v : α)
    (h : ∀ p ∈ m, p.1 ≠ k) : mapSet m k v = m ++ [(k, v)] := by
  induction m with
  | nil => rfl
  | cons p rest ih =>
    obtain ⟨a, b⟩ := p
    have ha : a ≠ k := h (a, b) (List.mem_cons_self _ _)
    simp [mapSet, ha, ih (fun q hq => h q (List.mem_cons_of_mem _ hq))]

theorem mapGet_mapSet_same {α : Type} (m : List (Nat × α)) (k : Nat) (v : α) :
    mapGet (mapSet m k v) k = some v := by
  induction m with
  | nil => simp [mapSet, mapGet]
  | cons p rest ih =>
    obtain ⟨a, b⟩ := p
    by_cases ha : a = k
    · subst ha; simp [mapSet, mapGet]
    · simp [mapSet, mapGet, ha, ih]

theorem mapGet_mapSet_other {α : Type} (m : List (Nat × α)) (k k' : Nat) (v : α)
    (h : k' ≠ k) : mapGet (mapSet m k v) k' = mapGet m k' := by
  induction m with
  | nil => simp [mapSet, mapGet, Ne.symm h]
  | cons p rest ih =>
    obtain ⟨a, b⟩ := p
    by_cases ha : a = k
    · subst ha
      simp [mapSet, mapGet, Ne.symm h]
    · simp [mapSet, mapGet, ha, ih]

theorem mapValues_mapSet_fresh {α : Type} (m : List (Nat × α)) (k : Nat) (v : α)
    (h : ∀ p ∈ m, p.1 ≠ k) : mapValues (mapSet m k v) = mapValues m ++ [v] := by
  simp [mapSet_fresh m k v h, mapValues]

/-! ## Frame lemmas about store operations -/

namespace MemStorage

theorem updateContractStatus_alerts (s : MemStorage) (id : Nat) (st : String) :
    (s.updateContractStatus id st).2.alerts = s.alerts := by
  unfold updateContractStatus
  cases mapGet s.contracts id <;> simp

theorem updateContractStatus_alertCurrentId (s : MemStorage) (id : Nat) (st : String) :
    (s.updateContractStatus id st).2.alertCurrentId = s.alertCurrentId := by
  unfold updateContractStatus
  cases mapGet s.contracts id <;> simp

theorem createAlert_snd_alerts (s : MemStorage) (now : Nat) (ia : InsertAlert) :
    (s.createAlert now ia).2.alerts = mapSet s.alerts s.alertCurrentId (s.createAlert now ia).1 :=
  rfl

theorem createAlert_alerts_fresh (s : MemStorage) (now : Nat) (ia : InsertAlert)
    (hWf : ∀ p ∈ s.alerts, p.1 < s.alertCurrentId) :
    (s.createAlert now ia).2.alerts = s.alerts ++ [(s.alertCurrentId, (s.createAlert now ia).1)] := by
  rw [createAlert_snd_alerts]
  exact mapSet_fresh _ _ _ (fun p hp => Nat.ne_of_lt (hWf p hp))

end MemStorage

/-- The Groq contract analysis leaves alerts, the alert counter and the
contracts map alone (it only inserts an `AiQuery` row). -/
theorem groq_analyzeContract_frame (apiKey : String) (net : GroqService.FetchOutcome)
    (s : MemStorage) (now : Nat) (contract : Contract) (code : String) :
    (GroqService.analyzeContract apiKey net s now contract code).2.1.alerts = s.alerts ∧
    (GroqService.analyzeContract apiKey net s now contract code).2.1.alertCurrentId
      = s.alertCurrentId ∧
    (GroqService.analyzeContract apiKey net s now contract code).2.1.contracts = s.contracts := by
  by_cases h : apiKey = "" <;> cases net <;>
    simp [GroqService.analyzeContract, MemStorage.createAiQuery, h]

/-- The indicator loop files exactly the alert of the first matching
indicator (appended to the existing alerts), and no alert at all when no
indicator matches. -/
theorem applyIndicators_alerts (now : Nat) (contract : Contract) (analysis : String)
    (inds : List Indicator) (s : MemStorage)
    (hWf : ∀ p ∈ s.alerts, p.1 < s.alertCurrentId) :
    (MonitorService.applyIndicators s now contract analysis inds).alerts =
      (match inds.find? (fun i => i.test analysis) with
       | none => s.alerts
       | some indicator =>
         s.alerts ++ [(s.alertCurrentId, mkIndicatorAlert s now contract analysis indicator)]) := by
  induction inds with
  | nil => simp [MonitorService.applyIndicators]
  | cons indicator rest ih =>
    by_cases h : indicator.test analysis
    · have h' : (fun i : Indicator => i.test analysis) indicator = true := h
      rw [List.find?_cons_of_pos rest h']
      have halerts :
          (MonitorService.applyIndicators s now contract analysis (indicator :: rest)).alerts
            = ((s.createAlert now
                { contractId := contract.id, severity := indicator.severity
                  title := indicator.title, description := analysis
                  resolved := some false }).2).alerts := by
        simp only [MonitorService.applyIndicators, h, if_true]
        split
        · exact MemStorage.updateContractStatus_alerts _ _ _
        · split
          · exact MemStorage.updateContractStatus_alerts _ _ _
          · rfl
      rw [halerts, MemStorage.createAlert_alerts_fresh _ _ _ hWf]
      rfl
    · have h' : ¬ (fun i : Indicator => i.test analysis) indicator = true := by
        simpa using h
      rw [List.find?_cons_of_neg rest h']
      have : (MonitorService.applyIndicators s now contract analysis (indicator :: rest))
          = MonitorService.applyIndicators s now contract analysis rest := by
        simp only [MonitorService.applyIndicators, h, if_false]
        simp [h]
      rw [this, ih]

theorem keys_lt_after_set {α : Type} (m : List (Nat × α)) (c : Nat) (v : α)
    (h : ∀ p ∈ m, p.1 < c) : ∀ p ∈ mapSet m c v, p.1 < c + 1 := by
  intro p hp
  rw [mapSet_fresh m c v (fun q hq => Nat.ne_of_lt (h q hq))] at hp
  rcases List.mem_append.mp hp with h1 | h1
  · exact Nat.lt_succ_of_lt (h p h1)
  · simp only [List.mem_singleton] at h1
    subst h1
    exact Nat.lt_succ_self c

theorem Wf_createUser (s : MemStorage) (iu : InsertUser) (hWf : s.Wf) :
    ((s.createUser iu).2).Wf := by
  obtain ⟨h1, h2, h3, h4, h5⟩ := hWf
  exact ⟨keys_lt_after_set _ _ _ h1, h2, h3, h4, h5⟩

theorem Wf_createContract (s : MemStorage) (now : Nat) (ic : InsertContract)
    (hWf : s.Wf) : ((s.createContract now ic).2).Wf := by
  obtain ⟨h1, h2, h3, h4, h5⟩ := hWf
  exact ⟨h1, keys_lt_after_set _ _ _ h2, h3, h4, h5⟩

theorem Wf_createAlert (s : MemStorage) (now : Nat) (ia : InsertAlert)
    (hWf : s.Wf) : ((s.createAlert now ia).2).Wf := by
  obtain ⟨h1, h2, h3, h4, h5⟩ := hWf
  exact ⟨h1, h2, keys_lt_after_set _ _ _ h3, h4, h5⟩

theorem Wf_createEvent (s : MemStorage) (now : Nat) (ie : InsertEvent)
    (hWf : s.Wf) : ((s.createEvent now ie).2).Wf := by
  obtain ⟨h1, h2, h3, h4, h5⟩ := hWf
  exact ⟨h1, h2, h3, keys_lt_after_set _ _ _ h4, h5⟩

theorem Wf_createAiQuery (s : MemStorage) (now : Nat) (iq : InsertAiQuery)
    (hWf : s.Wf) : ((s.createAiQuery now iq).2).Wf := by
  obtain ⟨h1, h2, h3, h4, h5⟩ := hWf
  exact ⟨h1, h2, h3, h4, keys_lt_after_set _ _ _ h5⟩

/-- `find?` returns the requested element when at most one element satisfies
the predicate (pairwise non-co-satisfaction). -/
theorem find?_eq_of_unique {α : Type} (p : α → Bool) :
    ∀ l : List α, l.Pairwise (fun a b => ¬(p a = true ∧ p b = true)) →
      ∀ a ∈ l, p a = true → l.find? p = some a := by
  intro l
  induction l with
  | nil => intro _ a ha; exact absurd ha (List.not_mem_nil a)
  | cons x xs ih =>
    intro hp a ha hpa
    rcases List.mem_cons.mp ha with rfl | hmem
    · exact List.find?_cons_of_pos xs hpa
    · by_cases hx : p x = true
      · exact absurd ⟨hx, hpa⟩ ((List.pairwise_cons.mp hp).1 a hmem)
      · rw [List.find?_cons_of_neg xs hx]
        exact ih (List.pairwise_cons.mp hp).2 a hmem hpa

theorem getEvents_none_eq (s : MemStorage) :
    s.getEvents none = (mapValues s.events).mergeSort MemStorage.eventDesc := rfl

theorem getEvents_none_pairwise (s : MemStorage) :
    (s.getEvents none).Pairwise (fun a b => b.timestamp ≤ a.timestamp) := by
  have htrans : ∀ a b c : Event, MemStorage.eventDesc a b = true →
      MemStorage.eventDesc b c = true → MemStorage.eventDesc a c = true := by
    intro a b c hab hbc
    simp only [MemStorage.eventDesc, decide_eq_true_eq] at hab hbc ⊢
    exact Nat.le_trans hbc hab
  have htotal : ∀ a b : Event,
      (MemStorage.eventDesc a b || MemStorage.eventDesc b a) = true := by
    intro a b
    simp only [MemStorage.eventDesc, Bool.or_eq_true, decide_eq_true_eq]
    exact Nat.le_total b.timestamp a.timestamp
  have hs := @List.sorted_mergeSort Event MemStorage.eventDesc htrans htotal
    (mapValues s.events)
  rw [getEvents_none_eq]
  exact hs.imp (fun h => by
    simpa [MemStorage.eventDesc, decide_eq_true_eq] using h)

/-! ## Claims -/

/-- C2 counterexample: in demo mode `getContractCode` does not produce
randomly generated data — its result is bitwise identical across different
random streams and even across different addresses, and equals the one
hard-coded placeholder bytecode constant. -/
theorem C2_counterexample :
    BlockchainService.getContractCode true rngZero none
        "0xea1Ad2Ebf76b490a327eF1885863c9209994F015" =
      BlockchainService.getContractCode true rngId none
        "0xd4DcBae99C65079ba6CA2e99c8D5Dcc37d60456b" ∧
    BlockchainService.getContractCode true rngZero none
        "0xea1Ad2Ebf76b490a327eF1885863c9209994F015" =
      Except.ok BlockchainService.DEMO_BYTECODE :=
  ⟨rfl, rfl⟩

/-- C2 (amended): in demo mode, for every address, every random stream and
every provider state, `getContractCode` returns the fixed hard-coded
placeholder bytecode rather than real chain data. -/
theorem C2_demo_code_fixed_placeholder (rng : Nat → Nat)
    (provider : Option (String → String)) (address : String) :
    BlockchainService.getContractCode true rng provider address =
      Except.ok BlockchainService.DEMO_BYTECODE := rfl

/-- C7: the AI service issues at most one HTTP POST per call of
`analyzeContract` or `analyzeEvent`, and on any failure — missing API key,
non-OK response, network error — the call returns a result with `tokenCount`
0 and an explanatory analysis string (the store untouched) instead of
throwing or retrying. -/
theorem C7_ai_service_single_post_no_throw (apiKey : String)
    (net : GroqService.FetchOutcome) (s : MemStorage) (now : Nat)
    (contract : Contract) (code : String) (eventName : String)
    (eventData : List (String × String)) :
    (GroqService.analyzeContract apiKey net s now contract code).2.2 ≤ 1 ∧
    (GroqService.analyzeEvent apiKey net s now contract eventName eventData).2.2 ≤ 1 ∧
    (apiKey = "" →
      GroqService.analyzeContract apiKey net s now contract code =
        (("AI analysis unavailable: API key not configured", 0), s, 0) ∧
      GroqService.analyzeEvent apiKey net s now contract eventName eventData =
        (("AI analysis unavailable: API key not configured", 0), s, 0)) ∧
    (∀ message, net = GroqService.FetchOutcome.fail message → apiKey ≠ "" →
      GroqService.analyzeContract apiKey net s now contract code =
        (("Error analyzing contract: " ++ message, 0), s, 1) ∧
      GroqService.analyzeEvent apiKey net s now contract eventName eventData =
        (("Error analyzing event: " ++ message, 0), s, 1)) := by
  refine ⟨?_, ?_, ?_, ?_⟩
  · by_cases h : apiKey = "" <;> cases net <;>
      simp [GroqService.analyzeContract, h]
  · by_cases h : apiKey = "" <;> cases net <;>
      simp [GroqService.analyzeEvent, h]
  · intro h
    cases net <;> simp [GroqService.analyzeContract, GroqService.analyzeEvent, h]
  · intro message hnet h
    subst hnet
    simp [GroqService.analyzeContract, GroqService.analyzeEvent, h]

/-- C7 witness: a failed POST with a configured key yields the explanatory
error result with zero tokens, one POST issued, store untouched. -/
theorem C7_witness :
    GroqService.analyzeContract "key" (GroqService.FetchOutcome.fail "boom")
        (MemStorage.init 0) 0 sampleFeed "code" =
      (("Error analyzing contract: boom", 0), MemStorage.init 0, 1) :=
  ((C7_ai_service_single_post_no_throw "key" (GroqService.FetchOutcome.fail "boom")
      (MemStorage.init 0) 0 sampleFeed "code" "E" []).2.2.2 "boom" rfl
    (by decide)).1

/-- C8: `resolveAlert id` flips only the `resolved` flag of the alert with
that id — every other field of the alert, every other alert, and all other
maps and counters of the store stay unchanged — and when no alert with that
id exists it returns `undefined` and leaves the whole store unchanged. -/
theorem C8_resolveAlert_frame (s : MemStorage) (id : Nat) :
    (mapGet s.alerts id = none → s.resolveAlert id = (none, s)) ∧
    (∀ alert, mapGet s.alerts id = some alert →
      (s.resolveAlert id).1 = some { alert with resolved := true } ∧
      (s.resolveAlert id).2.users = s.users ∧
      (s.resolveAlert id).2.contracts = s.contracts ∧
      (s.resolveAlert id).2.events = s.events ∧
      (s.resolveAlert id).2.aiQueries = s.aiQueries ∧
      (s.resolveAlert id).2.userCurrentId = s.userCurrentId ∧
      (s.resolveAlert id).2.contractCurrentId = s.contractCurrentId ∧
      (s.resolveAlert id).2.alertCurrentId = s.alertCurrentId ∧
      (s.resolveAlert id).2.eventCurrentId = s.eventCurrentId ∧
      (s.resolveAlert id).2.aiQueryCurrentId = s.aiQueryCurrentId ∧
      mapGet (s.resolveAlert id).2.alerts id = some { alert with resolved := true } ∧
      (∀ k, k ≠ id → mapGet (s.resolveAlert id).2.alerts k = mapGet s.alerts k)) := by
  constructor
  · intro h
    simp [MemStorage.resolveAlert, h]
  · intro alert halert
    unfold MemStorage.resolveAlert
    rw [halert]
    exact ⟨rfl, rfl, rfl, rfl, rfl, rfl, rfl, rfl, rfl, rfl,
      mapGet_mapSet_same _ _ _, fun k hk => mapGet_mapSet_other _ _ _ _ hk⟩

/-- C8 witness: resolving the stored sample alert returns it with the flag
set, and the hypothesis of the frame theorem holds at that concrete store. -/
theorem C8_witness :
    mapGet sampleAlertStore.alerts 1 = some sampleAlert ∧
    (sampleAlertStore.resolveAlert 1).1 = some { sampleAlert with resolved := true } :=
  ⟨by decide,
    ((C8_resolveAlert_frame sampleAlertStore 1).2 sampleAlert (by decide)).1⟩

/-- C10: `getEvents` returns the stored events newest first (timestamps
pairwise descending, a permutation of the stored values); a positive limit
`n` returns the first `n` of them (hence at most `n`), and limit 0 is falsy
in JS and returns everything, exactly like no limit. -/
theorem C10_getEvents_sorted_and_limited (s : MemStorage) (n : Nat) :
    (s.getEvents none).Pairwise (fun a b => b.timestamp ≤ a.timestamp) ∧
    (s.getEvents none).Perm (mapValues s.events) ∧
    s.getEvents (some 0) = s.getEvents none ∧
    (0 < n → s.getEvents (some n) = (s.getEvents none).take n ∧
      (s.getEvents (some n)).length ≤ n) := by
  refine ⟨getEvents_none_pairwise s, ?_, ?_, ?_⟩
  · rw [getEvents_none_eq]
    exact List.mergeSort_perm _ _
  · rfl
  · intro hn
    have hne : n ≠ 0 := Nat.pos_iff_ne_zero.mp hn
    constructor
    · simp [MemStorage.getEvents, hne]
    · simp only [MemStorage.getEvents, hne, if_false]
      calc (((mapValues s.events).mergeSort MemStorage.eventDesc).take n).length
          ≤ n := by
            rw [List.length_take]
            exact Nat.min_le_left _ _

/-- C1: `analyzeContractWithAI` checks the six vulnerability indicators in
the fixed listed order (reentrancy HIGH, access control HIGH,
overflow/underflow MEDIUM, front-running MEDIUM, logic error MEDIUM, gas
optimization LOW); for the first indicator whose pattern matches the
analysis text it files exactly one alert with that indicator's severity and
title, and it files no further alerts for that analysis even when later
patterns also match; when nothing matches, no alert is filed. -/
theorem C1_first_matching_indicator_single_alert
    (apiKey : String) (net : GroqService.FetchOutcome) (s : MemStorage) (now : Nat)
    (codeOf : String → Except String String) (contract : Contract) (code : String)
    (hWf : ∀ p ∈ s.alerts, p.1 < s.alertCurrentId)
    (hcode : codeOf contract.address = Except.ok code)
    (hne : code ≠ "") (hne0 : code ≠ "0x") :
    vulnerabilityIndicators.map (fun i => (i.severity, i.title)) =
      [("HIGH", "Reentrancy vulnerability"), ("HIGH", "Access control issue"),
       ("MEDIUM", "Integer overflow/underflow"), ("MEDIUM", "Front-running vulnerability"),
       ("MEDIUM", "Logic error"), ("LOW", "Gas optimization issue")] ∧
    (MonitorService.analyzeContractWithAI apiKey net s now codeOf contract).alerts =
      (match vulnerabilityIndicators.find?
          (fun i => i.test (GroqService.analyzeContract apiKey net s now contract code).1.1) with
       | none => s.alerts
       | some indicator =>
         s.alerts ++ [(s.alertCurrentId,
           mkIndicatorAlert s now contract
             (GroqService.analyzeContract apiKey net s now contract code).1.1 indicator)]) := by
  refine ⟨rfl, ?_⟩
  have hframe := groq_analyzeContract_frame apiKey net s now contract code
  have hLHS : MonitorService.analyzeContractWithAI apiKey net s now codeOf contract
      = MonitorService.applyIndicators
          (GroqService.analyzeContract apiKey net s now contract code).2.1 now contract
          (GroqService.analyzeContract apiKey net s now contract code).1.1
          vulnerabilityIndicators := by
    unfold MonitorService.analyzeContractWithAI
    rw [hcode]
    simp [hne, hne0]
  rw [hLHS]
  have happ := applyIndicators_alerts now contract
    (GroqService.analyzeContract apiKey net s now contract code).1.1
    vulnerabilityIndicators
    (GroqService.analyzeContract apiKey net s now contract code).2.1
    (by rw [hframe.1, hframe.2.1]; exact hWf)
  rw [happ]
  cases hfind : vulnerabilityIndicators.find?
      (fun i => i.test (GroqService.analyzeContract apiKey net s now contract code).1.1) with
  | none => simp [hframe.1]
  | some indicator => simp [hframe.1, hframe.2.1, mkIndicatorAlert]

/-- C1 witness: on the fresh store, an analysis mentioning both reentrancy
and gas optimization yields exactly the one HIGH reentrancy alert. -/
theorem C1_witness :
    (MonitorService.analyzeContractWithAI "key"
        (GroqService.FetchOutcome.ok "Possible reentrancy and gas optimization issues" 42)
        (MemStorage.init 0) 7 (fun _ => Except.ok "0x6080") sampleFeed).alerts =
      [(1, { id := 1, contractId := 1, severity := "HIGH"
             title := "Reentrancy vulnerability"
             description := "Possible reentrancy and gas optimization issues"
             aiAnalysis := none, createdAt := 7, resolved := false })] := by
  have h := C1_first_matching_indicator_single_alert "key"
    (GroqService.FetchOutcome.ok "Possible reentrancy and gas optimization issues" 42)
    (MemStorage.init 0) 7 (fun _ => Except.ok "0x6080") sampleFeed "0x6080"
    (by decide) rfl (by decide) (by decide)
  rw [h.2]
  rfl

/-- C3: every create operation of the store assigns the current per-entity
counter as the new id, bumps that counter by one, never hits an existing key
(the new pair is appended, nothing is overwritten), keeps the store
well-formed, and a second create of the same kind gets the next id — so ids
are distinct and strictly increasing per entity kind. -/
theorem C3_creates_fresh_and_increasing (s : MemStorage) (now : Nat)
    (iu : InsertUser) (ic : InsertContract) (ia : InsertAlert)
    (ie : InsertEvent) (iq : InsertAiQuery) (hWf : s.Wf) :
    ((s.createUser iu).1.id = s.userCurrentId ∧
      (s.createUser iu).2.userCurrentId = s.userCurrentId + 1 ∧
      (∀ p ∈ s.users, p.1 ≠ (s.createUser iu).1.id) ∧
      (s.createUser iu).2.users = s.users ++ [((s.createUser iu).1.id, (s.createUser iu).1)] ∧
      (((s.createUser iu).2).createUser iu).1.id = (s.createUser iu).1.id + 1 ∧
      ((s.createUser iu).2).Wf) ∧
    ((s.createContract now ic).1.id = s.contractCurrentId ∧
      (s.createContract now ic).2.contractCurrentId = s.contractCurrentId + 1 ∧
      (∀ p ∈ s.contracts, p.1 ≠ (s.createContract now ic).1.id) ∧
      (s.createContract now ic).2.contracts =
        s.contracts ++ [((s.createContract now ic).1.id, (s.createContract now ic).1)] ∧
      (((s.createContract now ic).2).createContract now ic).1.id =
        (s.createContract now ic).1.id + 1 ∧
      ((s.createContract now ic).2).Wf) ∧
    ((s.createAlert now ia).1.id = s.alertCurrentId ∧
      (s.createAlert now ia).2.alertCurrentId = s.alertCurrentId + 1 ∧
      (∀ p ∈ s.alerts, p.1 ≠ (s.createAlert now ia).1.id) ∧
      (s.createAlert now ia).2.alerts =
        s.alerts ++ [((s.createAlert now ia).1.id, (s.createAlert now ia).1)] ∧
      (((s.createAlert now ia).2).createAlert now ia).1.id =
        (s.createAlert now ia).1.id + 1 ∧
      ((s.createAlert now ia).2).Wf) ∧
    ((s.createEvent now ie).1.id = s.eventCurrentId ∧
      (s.createEvent now ie).2.eventCurrentId = s.eventCurrentId + 1 ∧
      (∀ p ∈ s.events, p.1 ≠ (s.createEvent now ie).1.id) ∧
      (s.createEvent now ie).2.events =
        s.events ++ [((s.createEvent now ie).1.id, (s.createEvent now ie).1)] ∧
      (((s.createEvent now ie).2).createEvent now ie).1.id =
        (s.createEvent now ie).1.id + 1 ∧
      ((s.createEvent now ie).2).Wf) ∧
    ((s.createAiQuery now iq).1.id = s.aiQueryCurrentId ∧
      (s.createAiQuery now iq).2.aiQueryCurrentId = s.aiQueryCurrentId + 1 ∧
      (∀ p ∈ s.aiQueries, p.1 ≠ (s.createAiQuery now iq).1.id) ∧
      (s.createAiQuery now iq).2.aiQueries =
        s.aiQueries ++ [((s.createAiQuery now iq).1.id, (s.createAiQuery now iq).1)] ∧
      (((s.createAiQuery now iq).2).createAiQuery now iq).1.id =
        (s.createAiQuery now iq).1.id + 1 ∧
      ((s.createAiQuery now iq).2).Wf) := by
  obtain ⟨h1, h2, h3, h4, h5⟩ := hWf
  refine ⟨⟨rfl, rfl, fun p hp => Nat.ne_of_lt (h1 p hp),
      mapSet_fresh _ _ _ (fun p hp => Nat.ne_of_lt (h1 p hp)), rfl,
      Wf_createUser s iu ⟨h1, h2, h3, h4, h5⟩⟩,
    ⟨rfl, rfl, fun p hp => Nat.ne_of_lt (h2 p hp),
      mapSet_fresh _ _ _ (fun p hp => Nat.ne_of_lt (h2 p hp)), rfl,
      Wf_createContract s now ic ⟨h1, h2, h3, h4, h5⟩⟩,
    ⟨rfl, rfl, fun p hp => Nat.ne_of_lt (h3 p hp),
      mapSet_fresh _ _ _ (fun p hp => Nat.ne_of_lt (h3 p hp)), rfl,
      Wf_createAlert s now ia ⟨h1, h2, h3, h4, h5⟩⟩,
    ⟨rfl, rfl, fun p hp => Nat.ne_of_lt (h4 p hp),
      mapSet_fresh _ _ _ (fun p hp => Nat.ne_of_lt (h4 p hp)), rfl,
      Wf_createEvent s now ie ⟨h1, h2, h3, h4, h5⟩⟩,
    ⟨rfl, rfl, fun p hp => Nat.ne_of_lt (h5 p hp),
      mapSet_fresh _ _ _ (fun p hp => Nat.ne_of_lt (h5 p hp)), rfl,
      Wf_createAiQuery s now iq ⟨h1, h2, h3, h4, h5⟩⟩⟩

/-- C3 witness: the freshly constructed store is well-formed and the next
contract create receives id 4 (after the three seeded Guardian contracts). -/
theorem C3_witness :
    (MemStorage.init 0).Wf ∧
    ((MemStorage.init 0).createContract 1 MemStorage.guardianFeed).1.id = 4 := by
  have h := C3_creates_fresh_and_increasing (MemStorage.init 0) 1 ⟨"u", "p"⟩
    MemStorage.guardianFeed ⟨1, "HIGH", "T", "D", none, none⟩
    ⟨1, "E", 1, "h", []⟩ ⟨1, "q", none, none⟩ (by decide)
  exact ⟨by decide, h.2.1.1.trans rfl⟩

/-- C4: a successful start schedules exactly the two repeating timers — the
security check every 30 minutes and the AI analysis every 2 hours — and runs
one security check immediately on the just-seeded store; `stop` clears the
flag and both timers; and with the flag down both `runSecurityChecks` and
`runAIAnalysis` return without touching the store. -/
theorem C4_timers_and_stop (m : MonitorService.MonitorState) (s s1 : MemStorage)
    (now : Nat) (bcInit : MemStorage → Except String Bool × MemStorage)
    (codeOf : String → Except String String) (apiKey : String)
    (netOf : Contract → GroqService.FetchOutcome)
    (hrun : m.isRunning = false) (hinit : bcInit s = (Except.ok true, s1)) :
    MonitorService.start m s now bcInit codeOf =
      (true,
        { isRunning := true, checkInterval := some (30 * 60 * 1000)
          analysisInterval := some (2 * 60 * 60 * 1000) },
        MonitorService.runSecurityChecks
          { isRunning := true, checkInterval := some (30 * 60 * 1000)
            analysisInterval := some (2 * 60 * 60 * 1000) } s1 now codeOf) ∧
    MonitorService.stop m =
      { isRunning := false, checkInterval := none, analysisInterval := none } ∧
    (∀ m' : MonitorService.MonitorState, m'.isRunning = false →
      MonitorService.runSecurityChecks m' s now codeOf = s ∧
      MonitorService.runAIAnalysis m' s now apiKey netOf codeOf = s) := by
  refine ⟨?_, rfl, ?_⟩
  · unfold MonitorService.start
    rw [hrun, hinit]
    simp [MonitorService.CHECK_PERIOD_MS, MonitorService.ANALYSIS_PERIOD_MS]
  · intro m' h
    constructor
    · unfold MonitorService.runSecurityChecks
      rw [h]
      simp
    · unfold MonitorService.runAIAnalysis
      rw [h]
      simp

/-- C4 witness: the stopped state satisfies the precondition, the demo
blockchain startup succeeds on the seeded store, and `stop` yields the
cleared state. -/
theorem C4_witness :
    (({ isRunning := false, checkInterval := none, analysisInterval := none } :
        MonitorService.MonitorState).isRunning = false) ∧
    MonitorService.stop
        { isRunning := false, checkInterval := none, analysisInterval := none } =
      { isRunning := false, checkInterval := none, analysisInterval := none } :=
  ⟨rfl,
    (C4_timers_and_stop
      { isRunning := false, checkInterval := none, analysisInterval := none }
      (MemStorage.init 0) (bcInitSample (MemStorage.init 0)).2 0 bcInitSample
      (fun _ => Except.ok BlockchainService.DEMO_BYTECODE) "key"
      (fun _ => GroqService.FetchOutcome.ok "fine" 1) rfl rfl).2.1⟩

/-- C5: the store enforces no referential integrity — even for a contractId
that no stored contract carries, `createAlert`, `createEvent` and
`createAiQuery` succeed, insert the entity with its contractId unchanged,
and never consult the contracts map (which stays untouched). -/
theorem C5_inserts_without_reference_check (s : MemStorage) (now : Nat)
    (contractId : Nat) (ia : InsertAlert) (ie : InsertEvent) (iq : InsertAiQuery)
    (hA : ia.contractId = contractId) (hE : ie.contractId = contractId)
    (hQ : iq.contractId = contractId)
    (hmissing : s.getContract contractId = none) :
    ((s.createAlert now ia).1.contractId = contractId ∧
      mapGet (s.createAlert now ia).2.alerts (s.createAlert now ia).1.id =
        some (s.createAlert now ia).1 ∧
      (s.createAlert now ia).2.contracts = s.contracts) ∧
    ((s.createEvent now ie).1.contractId = contractId ∧
      mapGet (s.createEvent now ie).2.events (s.createEvent now ie).1.id =
        some (s.createEvent now ie).1 ∧
      (s.createEvent now ie).2.contracts = s.contracts) ∧
    ((s.createAiQuery now iq).1.contractId = contractId ∧
      mapGet (s.createAiQuery now iq).2.aiQueries (s.createAiQuery now iq).1.id =
        some (s.createAiQuery now iq).1 ∧
      (s.createAiQuery now iq).2.contracts = s.contracts) := by
  exact ⟨⟨hA, mapGet_mapSet_same _ _ _, rfl⟩,
    ⟨hE, mapGet_mapSet_same _ _ _, rfl⟩,
    ⟨hQ, mapGet_mapSet_same _ _ _, rfl⟩⟩

/-- C5 witness: contract id 999 is stored nowhere, yet an alert referring to
it is created with its contractId intact. -/
theorem C5_witness :
    (MemStorage.init 0).getContract 999 = none ∧
    ((MemStorage.init 0).createAlert 0
      { contractId := 999, severity := "HIGH", title := "T", description := "D" }).1.contractId
      = 999 := by
  have h := C5_inserts_without_reference_check (MemStorage.init 0) 0 999
    ⟨999, "HIGH", "T", "D", none, none⟩ ⟨999, "E", 1, "h", []⟩
    ⟨999, "q", none, none⟩ rfl rfl rfl (by decide)
  exact ⟨by decide, h.1.1⟩

/-- C6: `createContract` defaults the status to `HEALTHY` and the abi to
`null` when the insert record omits them, stamps the supplied time as
`addedAt`, and hands out the fresh counter id (absent from the existing
map); the statuses the seeded system uses are exactly HEALTHY, WARNING and
ALERT. -/
theorem C6_createContract_defaults (s : MemStorage) (now : Nat) (ic : InsertContract)
    (hstatus : ic.status = none) (habi : ic.abi = none)
    (hWf : ∀ p ∈ s.contracts, p.1 < s.contractCurrentId) :
    (s.createContract now ic).1.status = "HEALTHY" ∧
    (s.createContract now ic).1.abi = none ∧
    (s.createContract now ic).1.id = s.contractCurrentId ∧
    (∀ p ∈ s.contracts, p.1 ≠ (s.createContract now ic).1.id) ∧
    (s.createContract now ic).1.addedAt = now ∧
    ((MemStorage.init now).getContracts).map (fun contract => contract.status) =
      ["HEALTHY", "WARNING", "ALERT"] := by
  refine ⟨?_, ?_, rfl, fun p hp => Nat.ne_of_lt (hWf p hp), rfl, rfl⟩
  · show jsOrString ic.status "HEALTHY" = "HEALTHY"
    rw [hstatus]
    rfl
  · show jsOrNullString ic.abi = none
    rw [habi]
    rfl

/-- C6 witness: creating a contract with neither status nor abi on the
seeded store yields status HEALTHY. -/
theorem C6_witness :
    (({ name := "N", address := "0xA", type := "FEED" } : InsertContract).status = none) ∧
    ((MemStorage.init 0).createContract 7
      { name := "N", address := "0xA", type := "FEED" }).1.status = "HEALTHY" := by
  have h := C6_createContract_defaults (MemStorage.init 0) 7
    { name := "N", address := "0xA", type := "FEED" } rfl rfl (by decide)
  exact ⟨rfl, h.1⟩

/-- C9 counterexample: with two stored contracts whose addresses differ only
in ASCII letter case, the query equal to the second contract's address (so
certainly equal to it up to case) does not return that contract — `find`
returns the first case-insensitive match instead. -/
theorem C9_counterexample :
    dupContractB.address = "0xab" ∧
    mapGet dupStoreB.contracts 2 = some dupContractB ∧
    dupStoreB.getContractByAddress "0xab" ≠ some dupContractB := by
  decide

/-- C9 (amended): `getContractByAddress` compares addresses
case-insensitively and returns the first stored contract whose lowercased
address equals the lowercased query; whenever the stored lowercased
addresses are pairwise distinct, a query equal to a stored contract's
address up to ASCII case returns exactly that contract; the lookup returns
`undefined` precisely when no stored address matches under lowercase
comparison. -/
theorem C9_case_insensitive_lookup (s : MemStorage) (address : String)
    (hdist : (s.getContracts).Pairwise
      (fun a b => jsToLower a.address ≠ jsToLower b.address)) :
    (∀ contract, s.getContractByAddress address = some contract →
      contract ∈ s.getContracts ∧ jsToLower contract.address = jsToLower address) ∧
    (s.getContractByAddress address = none ↔
      ∀ contract ∈ s.getContracts, jsToLower contract.address ≠ jsToLower address) ∧
    (∀ contract ∈ s.getContracts, jsToLower contract.address = jsToLower address →
      s.getContractByAddress address = some contract) := by
  refine ⟨?_, ?_, ?_⟩
  · intro c hc
    refine ⟨List.mem_of_find?_eq_some hc, ?_⟩
    have := List.find?_some hc
    simpa using this
  · unfold MemStorage.getContractByAddress
    rw [List.find?_eq_none]
    constructor
    · intro h c hc
      simpa using h c hc
    · intro h c hc
      simpa using h c hc
  · intro c hc hlow
    have hp : (s.getContracts).Pairwise
        (fun a b =>
          ¬((fun x : Contract => decide (jsToLower x.address = jsToLower address)) a = true ∧
            (fun x : Contract => decide (jsToLower x.address = jsToLower address)) b = true)) := by
      refine hdist.imp ?_
      intro a b hab hcon
      obtain ⟨ha, hb⟩ := hcon
      simp only [decide_eq_true_eq] at ha hb
      exact hab (ha.trans hb.symm)
    exact find?_eq_of_unique _ (s.getContracts) hp c hc (by simpa using hlow)

/-- C9 witness: on the seeded store (pairwise case-distinct addresses) the
upper-cased Guardian Feed address finds the Guardian Feed contract. -/
theorem C9_witness :
    (MemStorage.init 0).getContractByAddress
        "0XEA1AD2EBF76B490A327EF1885863C9209994F015" = some sampleFeed :=
  (C9_case_insensitive_lookup (MemStorage.init 0)
      "0XEA1AD2EBF76B490A327EF1885863C9209994F015" (by decide)).2.2 sampleFeed
    (by decide) (by decide)

/-- C10 witness: on the sample store a limit of 2 keeps the two newest
events and a limit of 0 returns all three. -/
theorem C10_witness :
    (0 < 2) ∧
    sampleEventsStore.getEvents (some 2) = (sampleEventsStore.getEvents none).take 2 :=
  ⟨by decide,
    ((C10_getEvents_sorted_and_limited sampleEventsStore 2).2.2.2 (by decide)).1⟩

end Guardian
